import Mathlib

/-!
Shallow embedding of `powerstats/PowerStatsAidl.cpp` (Pixel PowerStats HAL).

The C++ module aggregates power/energy telemetry from pluggable providers:
  * `addStateResidencyDataProvider` builds the registry (`mPowerEntityInfos`,
    `mStateResidencyDataProviders`), assigning sequential entity ids;
  * `getPowerEntityStateResidencyData` answers residency queries with a
    per-call scratch map keyed by entity name and an error-priority rule;
  * `getEnergyData` / `getRailInfo` delegate to an optional energy provider;
  * `dumpRailEnergy` / `dumpStateResidency` render tables, in delta mode
    diffing against a cached previous snapshot kept in function statics.

Machine integers (`int32_t` ids, `int64_t`/`uint64_t` counters) are modelled
as `Int`; all quantities handled by the claims stay far below 2^31 / 2^63,
where the C++ arithmetic agrees with unbounded integers.  `unordered_map`s
are modelled as association lists with first-insertion-wins `emplace`,
mirroring how the C++ code only ever inserts into these maps.
-/

/-- Result of `binder_status_t` as used by this file: `STATUS_OK`,
`STATUS_BAD_VALUE`, `STATUS_FAILED_TRANSACTION`. -/
inductive BinderStatus where
  | ok
  | badValue
  | failedTransaction
  deriving Repr, DecidableEq

/-- `PowerEntityStateInfo`: a state id together with its name. -/
structure PowerEntityStateInfo where
  powerEntityStateId : Int
  powerEntityStateName : String
  deriving Repr, DecidableEq

/-- `PowerEntityInfo`: registry entry for one power entity. -/
structure PowerEntityInfo where
  powerEntityId : Int
  powerEntityName : String
  states : List PowerEntityStateInfo
  deriving Repr, DecidableEq

/-- `PowerEntityStateResidencyData`: one state's residency counters. -/
structure PowerEntityStateResidencyData where
  powerEntityStateId : Int
  totalTimeInStateMs : Int
  totalStateEntryCount : Int
  lastEntryTimestampMs : Int
  deriving Repr, DecidableEq

/-- `PowerEntityStateResidencyResult`: residency data for one queried entity. -/
structure PowerEntityStateResidencyResult where
  powerEntityId : Int
  stateResidencyData : List PowerEntityStateResidencyData
  deriving Repr, DecidableEq

/-- `EnergyData`: one rail's cumulative energy reading. -/
structure EnergyData where
  railIndex : Int
  energyUWs : Int
  deriving Repr, DecidableEq

/-- `RailInfo`: one rail's metadata. -/
structure RailInfo where
  railIndex : Int
  subsysName : String
  railName : String
  deriving Repr, DecidableEq

/-- `unordered_map::find`, on an association list. -/
def mapFind {α β : Type} [DecidableEq α] (k : α) : List (α × β) → Option β
  | [] => none
  | p :: rest => if p.1 = k then some p.2 else mapFind k rest

/-- `unordered_map::emplace`: insert only if the key is not present yet. -/
def mapEmplace {α β : Type} [DecidableEq α] (m : List (α × β)) (k : α) (v : β) :
    List (α × β) :=
  if (mapFind k m).isSome then m else m ++ [(k, v)]

/-- Update the value stored at key `k` (`unordered_map::at` followed by
mutation through the returned reference). -/
def mapUpdateAt {α β : Type} [DecidableEq α] (m : List (α × β)) (k : α) (f : β → β) :
    List (α × β) :=
  m.map fun p => if p.1 = k then (p.1, f p.2) else p

/-- `IStateResidencyDataProvider`: external collaborator (its concrete
implementations live outside this file).  `getInfo` yields the entity-name /
state-list pairs enumerated at registration.  Its `getResults(&map)` call is
modelled as inserting the entries of `resultsFill` into the scratch map
(`emplace` semantics): the set of entity names a given provider can populate
is fixed for the duration of one top-level call. -/
structure IStateResidencyDataProvider where
  getInfo : List (String × List PowerEntityStateInfo)
  resultsFill : List (String × List PowerEntityStateResidencyData)
  deriving Repr, DecidableEq

/-- The effect of `provider->getResults(&stateResidencies)`: each entry of the
provider's fill is emplaced into the scratch map. -/
def providerGetResults (fill : List (String × List PowerEntityStateResidencyData))
    (m : List (String × List PowerEntityStateResidencyData)) :
    List (String × List PowerEntityStateResidencyData) :=
  match fill with
  | [] => m
  | (k, v) :: rest => providerGetResults rest (mapEmplace m k v)

/-- `IRailEnergyDataProvider`: external collaborator supplying rail energy
readings and rail metadata. -/
structure IRailEnergyDataProvider where
  getEnergyData : List Int → List EnergyData × BinderStatus
  getRailInfo : List RailInfo × BinderStatus

/-- The mutable fields of the `PowerStats` service object. -/
structure PowerStats where
  mRailEnergyDataProvider : Option IRailEnergyDataProvider
  mPowerEntityInfos : List PowerEntityInfo
  mStateResidencyDataProviders : List IStateResidencyDataProvider

/-- A freshly constructed `PowerStats` object: no providers registered. -/
def initPowerStats : PowerStats :=
  { mRailEnergyDataProvider := none
    mPowerEntityInfos := []
    mStateResidencyDataProviders := [] }

/-- `PowerStats::setRailDataProvider`. -/
def setRailDataProvider (st : PowerStats) (p : IRailEnergyDataProvider) : PowerStats :=
  { st with mRailEnergyDataProvider := some p }

/-- The loop body of `PowerStats::addStateResidencyDataProvider`: for each
`(entityName, states)` from `getInfo`, append a `PowerEntityInfo` carrying the
next id and record `p` as the owner. -/
def addEntities (p : IStateResidencyDataProvider) (id : Int)
    (entries : List (String × List PowerEntityStateInfo)) (st : PowerStats) :
    PowerStats :=
  match entries with
  | [] => st
  | (entityName, states) :: rest =>
      addEntities p (id + 1) rest
        { st with
          mPowerEntityInfos :=
            st.mPowerEntityInfos ++
              [{ powerEntityId := id, powerEntityName := entityName, states := states }]
          mStateResidencyDataProviders := st.mStateResidencyDataProviders ++ [p] }

/-- `PowerStats::addStateResidencyDataProvider`. -/
def addStateResidencyDataProvider (st : PowerStats) (p : IStateResidencyDataProvider) :
    PowerStats :=
  addEntities p (st.mPowerEntityInfos.length : Int) p.getInfo st

/-- Registering a list of providers on a fresh service, in order. -/
def registerAll (ps : List IStateResidencyDataProvider) : PowerStats :=
  ps.foldl addStateResidencyDataProvider initPowerStats

/-- `PowerStats::getEnergyData`: absent provider short-circuits to OK with the
output vector untouched (empty). -/
def getEnergyData (st : PowerStats) (railIndices : List Int) :
    List EnergyData × BinderStatus :=
  match st.mRailEnergyDataProvider with
  | none => ([], BinderStatus.ok)
  | some p => p.getEnergyData railIndices

/-- `PowerStats::getRailInfo`: same short-circuit as `getEnergyData`. -/
def getRailInfo (st : PowerStats) : List RailInfo × BinderStatus :=
  match st.mRailEnergyDataProvider with
  | none => ([], BinderStatus.ok)
  | some p => p.getRailInfo

/-- `PowerStats::getPowerEntityInfo`. -/
def getPowerEntityInfo (st : PowerStats) : List PowerEntityInfo × BinderStatus :=
  (st.mPowerEntityInfos, BinderStatus.ok)

/-- Instrumentation events recorded while running
`getPowerEntityStateResidencyData`'s loop: an out-of-range id, an invocation
of a provider's `getResults` (tagged with the triggering id and entity name),
or a failure to retrieve data for a valid id. -/
inductive REvent where
  | invalid (id : Int)
  | fetch (id : Int) (entityName : String)
  | missing (id : Int)
  deriving Repr, DecidableEq

/-- The loop-carried state of `getPowerEntityStateResidencyData`: error code,
scratch map `stateResidencies`, accumulated `*_aidl_return`, plus the
instrumentation trace. -/
structure ResidencyLoopState where
  err : BinderStatus
  stateResidencies : List (String × List PowerEntityStateResidencyData)
  results : List PowerEntityStateResidencyResult
  trace : List REvent
  deriving Repr, DecidableEq

/-- Loop state at entry of the loop. -/
def initLoopState : ResidencyLoopState :=
  { err := BinderStatus.ok, stateResidencies := [], results := [], trace := [] }

/-- Lines 90-94 of the loop: if the scratch map has no entry for the entity
name yet, invoke the owning provider's `getResults` on it (the provider is
looked up at the same index `id`; the out-of-bounds case cannot arise for
states built by registration, see the table-alignment invariant). -/
def fetchIfAbsent (st : PowerStats) (s : ResidencyLoopState) (id : Int)
    (powerEntityName : String) : ResidencyLoopState :=
  if (mapFind powerEntityName s.stateResidencies).isSome then s
  else
    { s with
      stateResidencies :=
        match st.mStateResidencyDataProviders.get? id.toNat with
        | some p => providerGetResults p.resultsFill s.stateResidencies
        | none => s.stateResidencies
      trace := s.trace ++ [REvent.fetch id powerEntityName] }

/-- Lines 96-110 of the loop: append a result when the scratch map now has
data for the entity name, otherwise record `STATUS_FAILED_TRANSACTION` unless
a higher-priority error code is already set. -/
def appendOrFail (s : ResidencyLoopState) (id : Int) (powerEntityName : String) :
    ResidencyLoopState :=
  match mapFind powerEntityName s.stateResidencies with
  | some d =>
    { s with
      results := s.results ++ [{ powerEntityId := id, stateResidencyData := d }] }
  | none =>
    { s with
      err :=
        if s.err = BinderStatus.ok then BinderStatus.failedTransaction else s.err
      trace := s.trace ++ [REvent.missing id] }

/-- One iteration of the loop in `PowerStats::getPowerEntityStateResidencyData`
(lines 83-111): bounds-check the id, fetch from the owning provider when the
entity name is not in the scratch map yet, then either append a result or
record `STATUS_FAILED_TRANSACTION` without overwriting an earlier error. -/
def residencyStep (st : PowerStats) (s : ResidencyLoopState) (id : Int) :
    ResidencyLoopState :=
  if id < 0 ∨ (st.mPowerEntityInfos.length : Int) ≤ id then
    { s with err := BinderStatus.badValue, trace := s.trace ++ [REvent.invalid id] }
  else
    match st.mPowerEntityInfos.get? id.toNat with
    | none => s
    | some info =>
      appendOrFail (fetchIfAbsent st s id info.powerEntityName) id
        info.powerEntityName

/-- Running the loop over a list of requested ids. -/
def runResidencyLoop (st : PowerStats) (ids : List Int) : ResidencyLoopState :=
  ids.foldl (residencyStep st) initLoopState

/-- The id list `getPowerEntityStateResidencyData` actually iterates over:
an empty request with a non-empty registry recursively expands to
`iota(0..N-1)`. -/
def effectiveIds (st : PowerStats) (ids : List Int) : List Int :=
  if ids.isEmpty ∧ ¬st.mPowerEntityInfos.isEmpty then
    (List.range st.mPowerEntityInfos.length).map Int.ofNat
  else ids

/-- `PowerStats::getPowerEntityStateResidencyData`, with instrumentation:
full final loop state. -/
def getPowerEntityStateResidencyDataFull (st : PowerStats) (ids : List Int) :
    ResidencyLoopState :=
  runResidencyLoop st (effectiveIds st ids)

/-- `PowerStats::getPowerEntityStateResidencyData`: the observable pair
(`*_aidl_return`, returned status). -/
def getPowerEntityStateResidencyData (st : PowerStats) (ids : List Int) :
    List PowerEntityStateResidencyResult × BinderStatus :=
  let s := getPowerEntityStateResidencyDataFull st ids
  (s.results, s.err)

/-- `PowerStats::getEntityStateMaps`: entity-id → entity-name map and
entity-id → (state-id → state-name) map, built with `emplace`. -/
def getEntityStateMaps (st : PowerStats) :
    List (Int × String) × List (Int × List (Int × String)) :=
  (getPowerEntityInfo st).1.foldl
    (fun acc info =>
      let entityNames := mapEmplace acc.1 info.powerEntityId info.powerEntityName
      let stateNames := mapEmplace acc.2 info.powerEntityId []
      let stateNames :=
        mapUpdateAt stateNames info.powerEntityId fun inner =>
          info.states.foldl
            (fun im s => mapEmplace im s.powerEntityStateId s.powerEntityStateName)
            inner
      (entityNames, stateNames))
    ([], [])

/-- `PowerStats::getRailEnergyMaps`: rail-index → (subsystem, rail) names. -/
def getRailEnergyMaps (st : PowerStats) : List (Int × (String × String)) :=
  (getRailInfo st).1.foldl
    (fun m info => mapEmplace m info.railIndex (info.subsysName, info.railName)) []

/-- The statics cached across dump calls: `prevEnergyData` / `prevTime` of
`dumpRailEnergy` and `prevResults` / `prevTime` of `dumpStateResidency`.
`none` for a time means the corresponding static was not initialised yet;
the C++ initialiser `static prevTime = curTime` makes the first delta call
see an elapsed time of zero. -/
structure DumpState where
  prevEnergyData : List EnergyData
  prevTimeRail : Option Int
  prevResults : List PowerEntityStateResidencyResult
  prevTimeRes : Option Int
  deriving Repr, DecidableEq

/-- Dump statics before the first dump call of the process. -/
def initDumpState : DumpState :=
  { prevEnergyData := [], prevTimeRail := none, prevResults := [], prevTimeRes := none }

/-- One rendered line of the delta-mode rail-energy table.  `railIndex`
identifies which record the line renders; the printed columns are the names,
the cumulative energy and the delta (the C++ prints both energies divided by
1000 with two decimals, which is injective in the integer fields kept here). -/
structure RailDeltaRow where
  railIndex : Int
  subsysName : String
  railName : String
  energyUWs : Int
  deltaUWs : Int
  deriving Repr, DecidableEq

/-- One rendered line of the non-delta rail-energy table. -/
structure RailPlainRow where
  subsysName : String
  railName : String
  energyUWs : Int
  deriving Repr, DecidableEq

/-- `railNames.at(idx)`; the C++ `at` throws when the rail index has no
metadata, a path no claim exercises — modelled with a default. -/
def railNameAt (railNames : List (Int × (String × String))) (idx : Int) :
    String × String :=
  (mapFind idx railNames).getD ("", "")

/-- `prevEnergyDataMap` of `dumpRailEnergy`: rail index → previous energy. -/
def buildPrevEnergyMap (prev : List EnergyData) : List (Int × Int) :=
  prev.foldl (fun m d => mapEmplace m d.railIndex d.energyUWs) []

/-- The delta-mode row for one current energy reading: delta against the
previous snapshot when the rail index is present there, else zero. -/
def mkRailDeltaRow (railNames : List (Int × (String × String)))
    (prevMap : List (Int × Int)) (d : EnergyData) : RailDeltaRow :=
  let names := railNameAt railNames d.railIndex
  let deltaEnergy :=
    match mapFind d.railIndex prevMap with
    | some prevUWs => d.energyUWs - prevUWs
    | none => 0
  { railIndex := d.railIndex, subsysName := names.1, railName := names.2,
    energyUWs := d.energyUWs, deltaUWs := deltaEnergy }

/-- Output of the delta branch of `dumpRailEnergy`: the elapsed-time line and
the data rows. -/
structure RailDeltaOut where
  elapsedMs : Int
  rows : List RailDeltaRow
  deriving Repr, DecidableEq

/-- The delta branch of `PowerStats::dumpRailEnergy` (lines 163-196), plus the
unconditional update of the statics (lines 195-196). -/
def dumpRailEnergyDelta (st : PowerStats) (ds : DumpState) (curTime : Int) :
    RailDeltaOut × DumpState :=
  let railNames := getRailEnergyMaps st
  let energyData := (getEnergyData st []).1
  let prevTime := ds.prevTimeRail.getD curTime
  let prevMap := buildPrevEnergyMap ds.prevEnergyData
  let rows := energyData.map (mkRailDeltaRow railNames prevMap)
  ({ elapsedMs := curTime - prevTime, rows := rows },
   { ds with prevEnergyData := energyData, prevTimeRail := some curTime })

/-- The non-delta branch of `PowerStats::dumpRailEnergy` (lines 197-206). -/
def dumpRailEnergyPlain (st : PowerStats) : List RailPlainRow :=
  let railNames := getRailEnergyMaps st
  let energyData := (getEnergyData st []).1
  energyData.map fun d =>
    let names := railNameAt railNames d.railIndex
    { subsysName := names.1, railName := names.2, energyUWs := d.energyUWs }

/-- Rendered content of one `dumpRailEnergy` call. -/
inductive RailDump where
  | plain (rows : List RailPlainRow)
  | withDelta (out : RailDeltaOut)
  deriving Repr, DecidableEq

/-- `PowerStats::dumpRailEnergy`: dispatch on the delta flag; only the delta
branch touches the statics. -/
def dumpRailEnergy (st : PowerStats) (ds : DumpState) (delta : Bool)
    (curTime : Int) : RailDump × DumpState :=
  if delta then
    let (out, ds2) := dumpRailEnergyDelta st ds curTime
    (RailDump.withDelta out, ds2)
  else
    (RailDump.plain (dumpRailEnergyPlain st), ds)

/-- One rendered line of the delta-mode state-residency table.  `entityId` and
`stateId` identify which record the line renders; the printed columns are the
names, the three counters and their three deltas. -/
structure ResDeltaRow where
  entityId : Int
  stateId : Int
  entityName : String
  stateName : String
  totalTimeInStateMs : Int
  deltaTotalTime : Int
  totalStateEntryCount : Int
  deltaTotalCount : Int
  lastEntryTimestampMs : Int
  deltaTimestamp : Int
  deriving Repr, DecidableEq

/-- One rendered line of the non-delta state-residency table. -/
structure ResPlainRow where
  entityName : String
  stateName : String
  totalTimeInStateMs : Int
  totalStateEntryCount : Int
  lastEntryTimestampMs : Int
  deriving Repr, DecidableEq

/-- `prevResultsMap` of `dumpStateResidency`: the previous snapshot as a
two-tier map entity-id → state-id → data, built with `emplace` at both
tiers. -/
def buildPrevResultsMap (prev : List PowerEntityStateResidencyResult) :
    List (Int × List (Int × PowerEntityStateResidencyData)) :=
  prev.foldl
    (fun m r =>
      let m := mapEmplace m r.powerEntityId []
      mapUpdateAt m r.powerEntityId fun inner =>
        r.stateResidencyData.foldl
          (fun im d => mapEmplace im d.powerEntityStateId d) inner)
    []

/-- Lookup in the two-tier previous-snapshot map: `none` when either the
entity or the state is absent. -/
def twoTierFind (m : List (Int × List (Int × PowerEntityStateResidencyData)))
    (eid sid : Int) : Option PowerEntityStateResidencyData :=
  match mapFind eid m with
  | none => none
  | some inner => mapFind sid inner

/-- `entityNames.at(eid)` / `stateNames.at(eid).at(sid)`; the throwing paths
of `at` are not exercised by the claims — modelled with defaults. -/
def entityNameAt (entityNames : List (Int × String)) (eid : Int) : String :=
  (mapFind eid entityNames).getD ""

/-- State-name lookup for a rendered row. -/
def stateNameAt (stateNames : List (Int × List (Int × String))) (eid sid : Int) :
    String :=
  (mapFind sid ((mapFind eid stateNames).getD [])).getD ""

/-- The delta-mode row for one current state-residency record: deltas against
the previous snapshot when the (entity, state) key is present there, else all
three deltas are zero. -/
def mkResDeltaRow (entityNames : List (Int × String))
    (stateNames : List (Int × List (Int × String)))
    (prevMap : List (Int × List (Int × PowerEntityStateResidencyData)))
    (eid : Int) (d : PowerEntityStateResidencyData) : ResDeltaRow :=
  let deltas :=
    match twoTierFind prevMap eid d.powerEntityStateId with
    | some pd =>
        (d.totalTimeInStateMs - pd.totalTimeInStateMs,
         d.totalStateEntryCount - pd.totalStateEntryCount,
         d.lastEntryTimestampMs - pd.lastEntryTimestampMs)
    | none => (0, 0, 0)
  { entityId := eid, stateId := d.powerEntityStateId,
    entityName := entityNameAt entityNames eid,
    stateName := stateNameAt stateNames eid d.powerEntityStateId,
    totalTimeInStateMs := d.totalTimeInStateMs, deltaTotalTime := deltas.1,
    totalStateEntryCount := d.totalStateEntryCount, deltaTotalCount := deltas.2.1,
    lastEntryTimestampMs := d.lastEntryTimestampMs, deltaTimestamp := deltas.2.2 }

/-- Output of the delta branch of `dumpStateResidency`. -/
structure ResDeltaOut where
  elapsedMs : Int
  rows : List ResDeltaRow
  deriving Repr, DecidableEq

/-- The delta branch of `PowerStats::dumpStateResidency` (lines 229-295), plus
the unconditional update of the statics (lines 294-295). -/
def dumpStateResidencyDelta (st : PowerStats) (ds : DumpState) (curTime : Int) :
    ResDeltaOut × DumpState :=
  let maps := getEntityStateMaps st
  let results := (getPowerEntityStateResidencyData st []).1
  let prevTime := ds.prevTimeRes.getD curTime
  let prevMap := buildPrevResultsMap ds.prevResults
  let rows :=
    results.foldl
      (fun acc r =>
        acc ++ r.stateResidencyData.map (mkResDeltaRow maps.1 maps.2 prevMap r.powerEntityId))
      []
  ({ elapsedMs := curTime - prevTime, rows := rows },
   { ds with prevResults := results, prevTimeRes := some curTime })

/-- The non-delta branch of `PowerStats::dumpStateResidency` (lines 296-310). -/
def dumpStateResidencyPlain (st : PowerStats) : List ResPlainRow :=
  let maps := getEntityStateMaps st
  let results := (getPowerEntityStateResidencyData st []).1
  results.foldl
    (fun acc r =>
      acc ++ r.stateResidencyData.map fun d =>
        { entityName := entityNameAt maps.1 r.powerEntityId,
          stateName := stateNameAt maps.2 r.powerEntityId d.powerEntityStateId,
          totalTimeInStateMs := d.totalTimeInStateMs,
          totalStateEntryCount := d.totalStateEntryCount,
          lastEntryTimestampMs := d.lastEntryTimestampMs })
    []

/-- Rendered content of one `dumpStateResidency` call. -/
inductive ResDump where
  | plain (rows : List ResPlainRow)
  | withDelta (out : ResDeltaOut)
  deriving Repr, DecidableEq

/-- `PowerStats::dumpStateResidency`: dispatch on the delta flag; only the
delta branch touches the statics. -/
def dumpStateResidency (st : PowerStats) (ds : DumpState) (delta : Bool)
    (curTime : Int) : ResDump × DumpState :=
  if delta then
    let (out, ds2) := dumpStateResidencyDelta st ds curTime
    (ResDump.withDelta out, ds2)
  else
    (ResDump.plain (dumpStateResidencyPlain st), ds)

/-- Whether a trace records a failure to retrieve data for some valid id. -/
def hasMissing (tr : List REvent) : Bool :=
  tr.any fun e =>
    match e with
    | REvent.missing _ => true
    | _ => false

/-- How many `getResults` invocations in a trace were triggered by ids whose
entity name is `n`. -/
def fetchCountFor (tr : List REvent) (n : String) : Nat :=
  (tr.filter fun e =>
    match e with
    | REvent.fetch _ m => m == n
    | _ => false).length

/-- The entity ids currently stored in the registry, in table order. -/
def entityIds (st : PowerStats) : List Int :=
  st.mPowerEntityInfos.map fun i => i.powerEntityId

/-- `[0, 1, ..., n-1]` as `Int`s (what `std::iota` from 0 produces). -/
def castRange (n : Nat) : List Int :=
  (List.range n).map Int.ofNat

/-- `[a, a+1, ..., a+n-1]`. -/
def intRangeFrom (a : Int) (n : Nat) : List Int :=
  (List.range n).map fun k => a + Int.ofNat k

/-- The registry entries one `addStateResidencyDataProvider` call appends:
the provider's `getInfo` entries numbered consecutively from `id`. -/
def numberedInfos (id : Int) :
    List (String × List PowerEntityStateInfo) → List PowerEntityInfo
  | [] => []
  | (entityName, states) :: rest =>
    { powerEntityId := id, powerEntityName := entityName, states := states } ::
      numberedInfos (id + 1) rest

/-- Concrete fixture: one residency data record. -/
def sampleData : PowerEntityStateResidencyData :=
  { powerEntityStateId := 0, totalTimeInStateMs := 10, totalStateEntryCount := 2,
    lastEntryTimestampMs := 5 }

/-- Concrete fixture: a provider owning entities `"cpu"` and `"gpu"` and
supplying results for both. -/
def sampleProviderA : IStateResidencyDataProvider :=
  { getInfo :=
      [("cpu", [{ powerEntityStateId := 0, powerEntityStateName := "on" }]),
       ("gpu", [{ powerEntityStateId := 0, powerEntityStateName := "on" }])]
    resultsFill := [("cpu", [sampleData]), ("gpu", [sampleData])] }

/-- Concrete fixture: a provider owning entity `"e"` but supplying no
results for it. -/
def sampleProviderNoData : IStateResidencyDataProvider :=
  { getInfo := [("e", [])], resultsFill := [] }

/-- Concrete fixture: service with `sampleProviderA` registered. -/
def sampleRegistry : PowerStats :=
  registerAll [sampleProviderA]

/-- Concrete fixture: service with `sampleProviderNoData` registered. -/
def sampleRegistryNoData : PowerStats :=
  registerAll [sampleProviderNoData]

/-! Association-map lemmas -/

theorem mapFind_append_some {α β : Type} [DecidableEq α] {k : α} {v : β}
    {l1 l2 : List (α × β)} (h : mapFind k l1 = some v) :
    mapFind k (l1 ++ l2) = some v := by
  induction l1 with
  | nil => simp [mapFind] at h
  | cons p rest ih =>
    rw [List.cons_append]
    by_cases hp : p.1 = k
    · simp only [mapFind, if_pos hp] at h ⊢
      exact h
    · simp only [mapFind, if_neg hp] at h ⊢
      exact ih h

theorem mapFind_append_none {α β : Type} [DecidableEq α] {k : α}
    {l1 l2 : List (α × β)} (h : mapFind k l1 = none) :
    mapFind k (l1 ++ l2) = mapFind k l2 := by
  induction l1 with
  | nil => rfl
  | cons p rest ih =>
    rw [List.cons_append]
    by_cases hp : p.1 = k
    · simp only [mapFind, if_pos hp] at h
      exact (Option.some_ne_none _ h).elim
    · simp only [mapFind, if_neg hp] at h ⊢
      exact ih h

theorem mapFind_emplace_mono {α β : Type} [DecidableEq α] {k : α} {v : β}
    {m : List (α × β)} (k2 : α) (v2 : β) (h : mapFind k m = some v) :
    mapFind k (mapEmplace m k2 v2) = some v := by
  unfold mapEmplace
  split
  · exact h
  · exact mapFind_append_some h

theorem mapFind_emplace_isSome {α β : Type} [DecidableEq α] (k k2 : α) (v : β)
    (m : List (α × β)) :
    (mapFind k (mapEmplace m k2 v)).isSome ↔
      (mapFind k m).isSome ∨ k2 = k := by
  unfold mapEmplace
  split
  case isTrue h =>
    constructor
    · exact Or.inl
    · rintro (hs | rfl)
      · exact hs
      · exact h
  case isFalse h =>
    cases hm : mapFind k m with
    | some v0 =>
      rw [mapFind_append_some hm]
      simp [hm]
    | none =>
      rw [mapFind_append_none hm]
      by_cases hk : k2 = k
      · simp [mapFind, hk]
      · simp [mapFind, hk, hm]

theorem providerGetResults_mono {k : String}
    {v : List PowerEntityStateResidencyData}
    (fill m : List (String × List PowerEntityStateResidencyData))
    (h : mapFind k m = some v) :
    mapFind k (providerGetResults fill m) = some v := by
  induction fill generalizing m with
  | nil => exact h
  | cons p rest ih =>
    obtain ⟨k2, v2⟩ := p
    exact ih _ (mapFind_emplace_mono k2 v2 h)

theorem providerGetResults_isSome (k : String)
    (fill m : List (String × List PowerEntityStateResidencyData)) :
    (mapFind k (providerGetResults fill m)).isSome ↔
      (mapFind k m).isSome ∨ (mapFind k fill).isSome := by
  induction fill generalizing m with
  | nil => simp [providerGetResults, mapFind]
  | cons p rest ih =>
    obtain ⟨k2, v2⟩ := p
    simp only [providerGetResults]
    rw [ih, mapFind_emplace_isSome]
    by_cases hk : k2 = k
    · simp [mapFind, hk]
    · simp [mapFind, hk]

/-! Step lemmas for the residency-query loop -/

theorem fetchIfAbsent_err (st : PowerStats) (s : ResidencyLoopState) (id : Int)
    (n : String) : (fetchIfAbsent st s id n).err = s.err := by
  unfold fetchIfAbsent
  split <;> rfl

theorem fetchIfAbsent_results (st : PowerStats) (s : ResidencyLoopState)
    (id : Int) (n : String) : (fetchIfAbsent st s id n).results = s.results := by
  unfold fetchIfAbsent
  split <;> rfl

theorem fetchIfAbsent_of_isSome {st : PowerStats} {s : ResidencyLoopState}
    {id : Int} {n : String} (h : (mapFind n s.stateResidencies).isSome) :
    fetchIfAbsent st s id n = s := by
  unfold fetchIfAbsent
  rw [if_pos h]

theorem fetchIfAbsent_of_absent {st : PowerStats} {s : ResidencyLoopState}
    {id : Int} {n : String} (h : ¬(mapFind n s.stateResidencies).isSome) :
    fetchIfAbsent st s id n =
      { s with
        stateResidencies :=
          match st.mStateResidencyDataProviders.get? id.toNat with
          | some p => providerGetResults p.resultsFill s.stateResidencies
          | none => s.stateResidencies
        trace := s.trace ++ [REvent.fetch id n] } := by
  unfold fetchIfAbsent
  rw [if_neg h]

theorem fetchIfAbsent_find_mono {st : PowerStats} {s : ResidencyLoopState}
    {id : Int} {n k : String} {v : List PowerEntityStateResidencyData}
    (h : mapFind k s.stateResidencies = some v) :
    mapFind k (fetchIfAbsent st s id n).stateResidencies = some v := by
  unfold fetchIfAbsent
  split
  · exact h
  · simp only
    split
    · exact providerGetResults_mono _ _ h
    · exact h

theorem appendOrFail_map (s : ResidencyLoopState) (id : Int) (n : String) :
    (appendOrFail s id n).stateResidencies = s.stateResidencies := by
  unfold appendOrFail
  split <;> rfl

theorem appendOrFail_of_some {s : ResidencyLoopState} {id : Int} {n : String}
    {d : List PowerEntityStateResidencyData}
    (h : mapFind n s.stateResidencies = some d) :
    appendOrFail s id n =
      { s with
        results :=
          s.results ++ [{ powerEntityId := id, stateResidencyData := d }] } := by
  unfold appendOrFail
  rw [h]

theorem appendOrFail_of_none {s : ResidencyLoopState} {id : Int} {n : String}
    (h : mapFind n s.stateResidencies = none) :
    appendOrFail s id n =
      { s with
        err :=
          if s.err = BinderStatus.ok then BinderStatus.failedTransaction else s.err
        trace := s.trace ++ [REvent.missing id] } := by
  unfold appendOrFail
  rw [h]

theorem appendOrFail_err_bad {s : ResidencyLoopState} (id : Int) (n : String)
    (h : s.err = BinderStatus.badValue) :
    (appendOrFail s id n).err = BinderStatus.badValue := by
  unfold appendOrFail
  split
  · exact h
  · simp only [h]
    rfl

theorem appendOrFail_results_mono (s : ResidencyLoopState) (id : Int)
    (n : String) :
    ∃ t, (appendOrFail s id n).results = s.results ++ t := by
  unfold appendOrFail
  split
  · exact ⟨_, rfl⟩
  · exact ⟨[], (List.append_nil _).symm⟩

theorem residencyStep_invalid {st : PowerStats} {id : Int}
    (s : ResidencyLoopState)
    (h : id < 0 ∨ (st.mPowerEntityInfos.length : Int) ≤ id) :
    residencyStep st s id =
      { s with err := BinderStatus.badValue,
               trace := s.trace ++ [REvent.invalid id] } := by
  unfold residencyStep
  rw [if_pos h]

theorem residencyStep_err_bad {st : PowerStats} {s : ResidencyLoopState}
    (id : Int) (h : s.err = BinderStatus.badValue) :
    (residencyStep st s id).err = BinderStatus.badValue := by
  unfold residencyStep
  split
  · rfl
  · split
    · exact h
    · exact appendOrFail_err_bad _ _ ((fetchIfAbsent_err st s id _).trans h)

theorem residencyStep_results_mono (st : PowerStats) (s : ResidencyLoopState)
    (id : Int) : ∃ t, (residencyStep st s id).results = s.results ++ t := by
  unfold residencyStep
  split
  · exact ⟨[], (List.append_nil _).symm⟩
  · split
    · exact ⟨[], (List.append_nil _).symm⟩
    · obtain ⟨t, ht⟩ := appendOrFail_results_mono (fetchIfAbsent st s id _) id _
      exact ⟨t, by rw [ht, fetchIfAbsent_results]⟩

theorem residencyStep_find_mono {st : PowerStats} {s : ResidencyLoopState}
    {id : Int} {k : String} {v : List PowerEntityStateResidencyData}
    (h : mapFind k s.stateResidencies = some v) :
    mapFind k (residencyStep st s id).stateResidencies = some v := by
  unfold residencyStep
  split
  · exact h
  · split
    · exact h
    · rw [appendOrFail_map]
      exact fetchIfAbsent_find_mono h

/-! Generic fold lemmas -/

theorem foldl_inv {σ α : Type} {f : σ → α → σ} {P : σ → Prop} :
    ∀ (l : List α), (∀ s a, a ∈ l → P s → P (f s a)) →
      ∀ {s : σ}, P s → P (l.foldl f s)
  | [], _, _, hs => hs
  | a :: l, h, s, hs =>
    foldl_inv l (fun s2 b hb => h s2 b (List.mem_cons_of_mem a hb))
      (h s a (List.mem_cons_self a l) hs)

theorem foldl_results_mono (st : PowerStats) (l : List Int) :
    ∀ s : ResidencyLoopState,
      ∃ t, (l.foldl (residencyStep st) s).results = s.results ++ t := by
  induction l with
  | nil => exact fun s => ⟨[], (List.append_nil _).symm⟩
  | cons a l ih =>
    intro s
    obtain ⟨t1, h1⟩ := residencyStep_results_mono st s a
    obtain ⟨t2, h2⟩ := ih (residencyStep st s a)
    exact ⟨t1 ++ t2, by rw [List.foldl_cons, h2, h1, List.append_assoc]⟩

/-! Status characterization -/

theorem hasMissing_append (t1 t2 : List REvent) :
    hasMissing (t1 ++ t2) = (hasMissing t1 || hasMissing t2) := by
  simp [hasMissing, List.any_append]

theorem hasMissing_fetchIfAbsent (st : PowerStats) (s : ResidencyLoopState)
    (id : Int) (n : String) :
    hasMissing (fetchIfAbsent st s id n).trace = hasMissing s.trace := by
  unfold fetchIfAbsent
  split
  · rfl
  · show hasMissing (s.trace ++ [REvent.fetch id n]) = hasMissing s.trace
    rw [hasMissing_append]
    have h1 : hasMissing [REvent.fetch id n] = false := rfl
    rw [h1, Bool.or_false]

theorem appendOrFail_J (s : ResidencyLoopState) (id : Int) (n : String)
    (h : s.err =
      (if hasMissing s.trace then BinderStatus.failedTransaction
       else BinderStatus.ok)) :
    (appendOrFail s id n).err =
      (if hasMissing (appendOrFail s id n).trace then BinderStatus.failedTransaction
       else BinderStatus.ok) := by
  unfold appendOrFail
  split
  · exact h
  · show (if s.err = BinderStatus.ok then BinderStatus.failedTransaction else s.err) =
      (if hasMissing (s.trace ++ [REvent.missing id]) then BinderStatus.failedTransaction
       else BinderStatus.ok)
    rw [hasMissing_append]
    have hm1 : hasMissing [REvent.missing id] = true := rfl
    rw [hm1, Bool.or_true]
    cases hm : hasMissing s.trace <;> rw [hm] at h <;> simp at h <;> simp [h]

theorem residencyStep_J {st : PowerStats} {id : Int}
    (hv : ¬(id < 0 ∨ (st.mPowerEntityInfos.length : Int) ≤ id))
    (s : ResidencyLoopState)
    (h : s.err =
      (if hasMissing s.trace then BinderStatus.failedTransaction
       else BinderStatus.ok)) :
    (residencyStep st s id).err =
      (if hasMissing (residencyStep st s id).trace then BinderStatus.failedTransaction
       else BinderStatus.ok) := by
  unfold residencyStep
  rw [if_neg hv]
  split
  · exact h
  · apply appendOrFail_J
    rw [fetchIfAbsent_err, hasMissing_fetchIfAbsent]
    exact h

theorem runLoop_err_char (st : PowerStats) (ids : List Int)
    (h : ∀ id ∈ ids, ¬(id < 0 ∨ (st.mPowerEntityInfos.length : Int) ≤ id)) :
    (runResidencyLoop st ids).err =
      (if hasMissing (runResidencyLoop st ids).trace then
        BinderStatus.failedTransaction
       else BinderStatus.ok) := by
  unfold runResidencyLoop
  apply foldl_inv
    (P := fun s => s.err =
      (if hasMissing s.trace then BinderStatus.failedTransaction
       else BinderStatus.ok))
    ids (fun s a ha hs => residencyStep_J (h a ha) s hs)
  rfl

theorem runLoop_err_bad (st : PowerStats) (ids : List Int) {id : Int}
    (hmem : id ∈ ids)
    (hbad : id < 0 ∨ (st.mPowerEntityInfos.length : Int) ≤ id) :
    (runResidencyLoop st ids).err = BinderStatus.badValue := by
  obtain ⟨l1, l2, rfl⟩ := List.append_of_mem hmem
  unfold runResidencyLoop
  rw [List.foldl_append, List.foldl_cons]
  have h1 : (residencyStep st (l1.foldl (residencyStep st) initLoopState) id).err =
      BinderStatus.badValue := by
    rw [residencyStep_invalid (l1.foldl (residencyStep st) initLoopState) hbad]
  exact foldl_inv (P := fun s : ResidencyLoopState => s.err = BinderStatus.badValue)
    l2 (fun s a _ hs => residencyStep_err_bad a hs) h1

/-! Fetch-count lemmas -/

theorem fetchCountFor_append (t1 t2 : List REvent) (n : String) :
    fetchCountFor (t1 ++ t2) n = fetchCountFor t1 n + fetchCountFor t2 n := by
  simp [fetchCountFor, List.filter_append]

theorem fetchCountFor_fetch (id : Int) (m n : String) :
    fetchCountFor [REvent.fetch id m] n = if m = n then 1 else 0 := by
  by_cases h : m = n
  · subst h
    simp [fetchCountFor]
  · simp [fetchCountFor, h]

theorem appendOrFail_fetchCount (s : ResidencyLoopState) (id : Int)
    (m n : String) :
    fetchCountFor (appendOrFail s id m).trace n = fetchCountFor s.trace n := by
  unfold appendOrFail
  split
  · rfl
  · show fetchCountFor (s.trace ++ [REvent.missing id]) n = fetchCountFor s.trace n
    rw [fetchCountFor_append]
    have h1 : fetchCountFor [REvent.missing id] n = 0 := rfl
    rw [h1, Nat.add_zero]

theorem residencyStep_fetchCount {st : PowerStats} {n : String}
    (H : ∀ (i : Nat) (info : PowerEntityInfo),
        st.mPowerEntityInfos.get? i = some info → info.powerEntityName = n →
        ∃ p, st.mStateResidencyDataProviders.get? i = some p ∧
          (mapFind n p.resultsFill).isSome)
    (s : ResidencyLoopState) (id : Int)
    (hs : fetchCountFor s.trace n = 0 ∨
      (fetchCountFor s.trace n = 1 ∧ (mapFind n s.stateResidencies).isSome)) :
    fetchCountFor (residencyStep st s id).trace n = 0 ∨
      (fetchCountFor (residencyStep st s id).trace n = 1 ∧
        (mapFind n (residencyStep st s id).stateResidencies).isSome) := by
  unfold residencyStep
  split
  · -- out-of-range id: one `invalid` event, scratch map untouched
    show fetchCountFor (s.trace ++ [REvent.invalid id]) n = 0 ∨
      (fetchCountFor (s.trace ++ [REvent.invalid id]) n = 1 ∧
        (mapFind n s.stateResidencies).isSome)
    have h1 : fetchCountFor [REvent.invalid id] n = 0 := rfl
    rw [fetchCountFor_append, h1, Nat.add_zero]
    exact hs
  · rename_i hvalid
    split
    · exact hs
    · rename_i info hinfo
      by_cases hpres : (mapFind info.powerEntityName s.stateResidencies).isSome
      · -- entity name already present: no fetch happens
        rw [fetchIfAbsent_of_isSome hpres]
        rcases hs with h0 | ⟨h1, hp⟩
        · left
          rw [appendOrFail_fetchCount]
          exact h0
        · right
          refine ⟨?_, ?_⟩
          · rw [appendOrFail_fetchCount]
            exact h1
          · rw [appendOrFail_map]
            exact hp
      · -- entity name absent: a fetch event is recorded
        rw [fetchIfAbsent_of_absent hpres]
        by_cases hnm : info.powerEntityName = n
        · -- the fetch is for the tracked name `n`
          have hmapnone : mapFind n s.stateResidencies = none := by
            rw [← hnm]
            exact Option.not_isSome_iff_eq_none.mp hpres
          have h0 : fetchCountFor s.trace n = 0 := by
            rcases hs with h0 | ⟨_, hp⟩
            · exact h0
            · rw [hmapnone] at hp
              exact absurd hp (by simp)
          obtain ⟨p, hpeq, hfill⟩ := H id.toNat info hinfo hnm
          right
          refine ⟨?_, ?_⟩
          · rw [appendOrFail_fetchCount]
            show fetchCountFor (s.trace ++ [REvent.fetch id info.powerEntityName]) n = 1
            rw [fetchCountFor_append, fetchCountFor_fetch, if_pos hnm, h0]
          · rw [appendOrFail_map]
            show (mapFind n
              (match st.mStateResidencyDataProviders.get? id.toNat with
               | some p => providerGetResults p.resultsFill s.stateResidencies
               | none => s.stateResidencies)).isSome
            rw [hpeq]
            rw [providerGetResults_isSome]
            exact Or.inr hfill
        · -- the fetch is for a different name: count for `n` unchanged
          have hcount : fetchCountFor (s.trace ++ [REvent.fetch id info.powerEntityName]) n =
              fetchCountFor s.trace n := by
            rw [fetchCountFor_append, fetchCountFor_fetch, if_neg hnm, Nat.add_zero]
          rcases hs with h0 | ⟨h1, hp⟩
          · left
            rw [appendOrFail_fetchCount]
            show fetchCountFor (s.trace ++ [REvent.fetch id info.powerEntityName]) n = 0
            rw [hcount]
            exact h0
          · right
            obtain ⟨v, hv⟩ := Option.isSome_iff_exists.mp hp
            refine ⟨?_, ?_⟩
            · rw [appendOrFail_fetchCount]
              show fetchCountFor (s.trace ++ [REvent.fetch id info.powerEntityName]) n = 1
              rw [hcount]
              exact h1
            · rw [appendOrFail_map]
              show (mapFind n
                (match st.mStateResidencyDataProviders.get? id.toNat with
                 | some p => providerGetResults p.resultsFill s.stateResidencies
                 | none => s.stateResidencies)).isSome
              split
              · rw [providerGetResults_mono _ _ hv]
                rfl
              · exact hp

/-! Effective-ids and result-entry lemmas -/

theorem effectiveIds_of_ne_nil {st : PowerStats} {ids : List Int}
    (h : ids ≠ []) : effectiveIds st ids = ids := by
  unfold effectiveIds
  rw [if_neg]
  rintro ⟨h1, _⟩
  exact h (List.isEmpty_iff.mp h1)

theorem effectiveIds_nil_of_nonempty {st : PowerStats}
    (h : st.mPowerEntityInfos ≠ []) :
    effectiveIds st [] = castRange st.mPowerEntityInfos.length := by
  unfold effectiveIds castRange
  rw [if_pos]
  exact ⟨rfl, by simpa using h⟩

theorem residencyStep_appends {st : PowerStats} {id : Int}
    {info : PowerEntityInfo} {p : IStateResidencyDataProvider}
    (hv : ¬(id < 0 ∨ (st.mPowerEntityInfos.length : Int) ≤ id))
    (hinfo : st.mPowerEntityInfos.get? id.toNat = some info)
    (hp : st.mStateResidencyDataProviders.get? id.toNat = some p)
    (hfill : (mapFind info.powerEntityName p.resultsFill).isSome)
    (s : ResidencyLoopState) :
    ∃ d, (residencyStep st s id).results =
      s.results ++ [{ powerEntityId := id, stateResidencyData := d }] := by
  unfold residencyStep
  rw [if_neg hv, hinfo]
  show ∃ d, (appendOrFail (fetchIfAbsent st s id info.powerEntityName) id
    info.powerEntityName).results = _
  by_cases hpres : (mapFind info.powerEntityName s.stateResidencies).isSome
  · obtain ⟨d, hd⟩ := Option.isSome_iff_exists.mp hpres
    rw [fetchIfAbsent_of_isSome hpres, appendOrFail_of_some hd]
    exact ⟨d, rfl⟩
  · rw [fetchIfAbsent_of_absent hpres, hp]
    have hfind : (mapFind info.powerEntityName
        (providerGetResults p.resultsFill s.stateResidencies)).isSome := by
      rw [providerGetResults_isSome]
      exact Or.inr hfill
    obtain ⟨d, hd⟩ := Option.isSome_iff_exists.mp hfind
    rw [appendOrFail_of_some hd]
    exact ⟨d, rfl⟩

theorem runLoop_contains_entry (st : PowerStats) {ids : List Int} {id : Int}
    {info : PowerEntityInfo} {p : IStateResidencyDataProvider}
    (hmem : id ∈ ids)
    (hv : ¬(id < 0 ∨ (st.mPowerEntityInfos.length : Int) ≤ id))
    (hinfo : st.mPowerEntityInfos.get? id.toNat = some info)
    (hp : st.mStateResidencyDataProviders.get? id.toNat = some p)
    (hfill : (mapFind info.powerEntityName p.resultsFill).isSome) :
    ∃ r ∈ (runResidencyLoop st ids).results, r.powerEntityId = id := by
  obtain ⟨l1, l2, rfl⟩ := List.append_of_mem hmem
  unfold runResidencyLoop
  rw [List.foldl_append, List.foldl_cons]
  obtain ⟨d, hd⟩ :=
    residencyStep_appends hv hinfo hp hfill (l1.foldl (residencyStep st) initLoopState)
  obtain ⟨t, ht⟩ :=
    foldl_results_mono st l2
      (residencyStep st (l1.foldl (residencyStep st) initLoopState) id)
  refine ⟨{ powerEntityId := id, stateResidencyData := d }, ?_, rfl⟩
  rw [ht, hd]
  simp [List.mem_append]

/-! Registration lemmas -/

theorem addEntities_infos (p : IStateResidencyDataProvider)
    (entries : List (String × List PowerEntityStateInfo)) :
    ∀ (id : Int) (st : PowerStats),
      (addEntities p id entries st).mPowerEntityInfos =
        st.mPowerEntityInfos ++ numberedInfos id entries := by
  induction entries with
  | nil =>
    intro id st
    simp [addEntities, numberedInfos]
  | cons e rest ih =>
    intro id st
    obtain ⟨nm, sts⟩ := e
    show (addEntities p (id + 1) rest _).mPowerEntityInfos = _
    rw [ih]
    simp [numberedInfos]

theorem addEntities_providers (p : IStateResidencyDataProvider)
    (entries : List (String × List PowerEntityStateInfo)) :
    ∀ (id : Int) (st : PowerStats),
      (addEntities p id entries st).mStateResidencyDataProviders =
        st.mStateResidencyDataProviders ++ List.replicate entries.length p := by
  induction entries with
  | nil =>
    intro id st
    simp [addEntities]
  | cons e rest ih =>
    intro id st
    obtain ⟨nm, sts⟩ := e
    show (addEntities p (id + 1) rest _).mStateResidencyDataProviders = _
    rw [ih]
    simp [List.replicate_succ]

theorem numberedInfos_length
    (entries : List (String × List PowerEntityStateInfo)) :
    ∀ id : Int, (numberedInfos id entries).length = entries.length := by
  induction entries with
  | nil => intro id; rfl
  | cons e rest ih =>
    intro id
    obtain ⟨nm, sts⟩ := e
    show (numberedInfos id ((nm, sts) :: rest)).length = rest.length + 1
    rw [numberedInfos, List.length_cons, ih]

theorem intRangeFrom_succ (a : Int) (n : Nat) :
    intRangeFrom a (n + 1) = a :: intRangeFrom (a + 1) n := by
  unfold intRangeFrom
  rw [List.range_succ_eq_map, List.map_cons, List.map_map]
  have hf : ((fun k : Nat => a + Int.ofNat k) ∘ Nat.succ) =
      fun k : Nat => (a + 1) + Int.ofNat k := by
    funext k
    simp only [Function.comp, Int.ofNat_eq_natCast]
    push_cast
    ring
  rw [hf]
  simp

theorem numberedInfos_ids
    (entries : List (String × List PowerEntityStateInfo)) :
    ∀ id : Int,
      (numberedInfos id entries).map (fun i => i.powerEntityId) =
        intRangeFrom id entries.length := by
  induction entries with
  | nil => intro id; rfl
  | cons e rest ih =>
    intro id
    obtain ⟨nm, sts⟩ := e
    show ({ powerEntityId := id, powerEntityName := nm, states := sts } ::
      numberedInfos (id + 1) rest).map _ = intRangeFrom id (rest.length + 1)
    rw [List.map_cons, ih, intRangeFrom_succ]

theorem castRange_add (n m : Nat) :
    castRange (n + m) = castRange n ++ intRangeFrom (n : Int) m := by
  induction m with
  | zero => simp [castRange, intRangeFrom]
  | succ m ih =>
    have h1 : castRange ((n + m) + 1) =
        castRange (n + m) ++ [Int.ofNat (n + m)] := by
      unfold castRange
      rw [List.range_succ, List.map_append]
      rfl
    have h2 : intRangeFrom (n : Int) (m + 1) =
        intRangeFrom (n : Int) m ++ [(n : Int) + Int.ofNat m] := by
      unfold intRangeFrom
      rw [List.range_succ, List.map_append]
      rfl
    calc castRange (n + (m + 1)) = castRange ((n + m) + 1) := by rw [Nat.add_succ]
    _ = castRange (n + m) ++ [Int.ofNat (n + m)] := h1
    _ = (castRange n ++ intRangeFrom (n : Int) m) ++ [Int.ofNat (n + m)] := by
        rw [ih]
    _ = castRange n ++ (intRangeFrom (n : Int) m ++ [(n : Int) + Int.ofNat m]) := by
        rw [List.append_assoc]
        simp only [Int.ofNat_eq_natCast]
        push_cast
        rfl
    _ = castRange n ++ intRangeFrom (n : Int) (m + 1) := by rw [h2]

theorem add_infos_length (st : PowerStats) (p : IStateResidencyDataProvider) :
    (addStateResidencyDataProvider st p).mPowerEntityInfos.length =
      st.mPowerEntityInfos.length + p.getInfo.length := by
  unfold addStateResidencyDataProvider
  rw [addEntities_infos, List.length_append, numberedInfos_length]

theorem add_providers_length (st : PowerStats) (p : IStateResidencyDataProvider) :
    (addStateResidencyDataProvider st p).mStateResidencyDataProviders.length =
      st.mStateResidencyDataProviders.length + p.getInfo.length := by
  unfold addStateResidencyDataProvider
  rw [addEntities_providers, List.length_append, List.length_replicate]

theorem entityIds_add (st : PowerStats) (p : IStateResidencyDataProvider) :
    entityIds (addStateResidencyDataProvider st p) =
      entityIds st ++
        intRangeFrom (st.mPowerEntityInfos.length : Int) p.getInfo.length := by
  unfold entityIds addStateResidencyDataProvider
  rw [addEntities_infos, List.map_append, numberedInfos_ids]

theorem registerAll_entityIds (ps : List IStateResidencyDataProvider) :
    entityIds (registerAll ps) =
      castRange (registerAll ps).mPowerEntityInfos.length := by
  unfold registerAll
  apply foldl_inv
    (P := fun st : PowerStats =>
      entityIds st = castRange st.mPowerEntityInfos.length)
    ps
  · intro st p _ h
    rw [entityIds_add, h, add_infos_length, castRange_add]
  · rfl

theorem registerAll_lengths (ps : List IStateResidencyDataProvider) :
    (registerAll ps).mPowerEntityInfos.length =
      (registerAll ps).mStateResidencyDataProviders.length := by
  unfold registerAll
  apply foldl_inv
    (P := fun st : PowerStats =>
      st.mPowerEntityInfos.length = st.mStateResidencyDataProviders.length)
    ps
  · intro st p _ h
    rw [add_infos_length, add_providers_length, h]
  · rfl

theorem get?_isSome_of_lt {α : Type} (l : List α) (i : Nat) (h : i < l.length) :
    (l.get? i).isSome := by
  rw [List.get?_eq_get h]
  rfl

/-! Dump-row lemmas -/

theorem mem_foldl_append {α β : Type} (g : α → List β) (l : List α) :
    ∀ (acc : List β) (b : β),
      (b ∈ l.foldl (fun a x => a ++ g x) acc ↔ b ∈ acc ∨ ∃ x ∈ l, b ∈ g x) := by
  induction l with
  | nil => simp
  | cons x l ih =>
    intro acc b
    rw [List.foldl_cons, ih]
    simp [List.mem_append, or_assoc]

theorem mkResDeltaRow_entityId (en : List (Int × String))
    (sn : List (Int × List (Int × String)))
    (pm : List (Int × List (Int × PowerEntityStateResidencyData)))
    (eid : Int) (d : PowerEntityStateResidencyData) :
    (mkResDeltaRow en sn pm eid d).entityId = eid := rfl

theorem mkResDeltaRow_stateId (en : List (Int × String))
    (sn : List (Int × List (Int × String)))
    (pm : List (Int × List (Int × PowerEntityStateResidencyData)))
    (eid : Int) (d : PowerEntityStateResidencyData) :
    (mkResDeltaRow en sn pm eid d).stateId = d.powerEntityStateId := rfl

theorem mkResDeltaRow_zero {pm : List (Int × List (Int × PowerEntityStateResidencyData))}
    {eid : Int} {d : PowerEntityStateResidencyData}
    (en : List (Int × String)) (sn : List (Int × List (Int × String)))
    (h : twoTierFind pm eid d.powerEntityStateId = none) :
    (mkResDeltaRow en sn pm eid d).deltaTotalTime = 0 ∧
      (mkResDeltaRow en sn pm eid d).deltaTotalCount = 0 ∧
      (mkResDeltaRow en sn pm eid d).deltaTimestamp = 0 := by
  unfold mkResDeltaRow
  rw [h]
  exact ⟨rfl, rfl, rfl⟩

theorem mkRailDeltaRow_railIndex (rn : List (Int × (String × String)))
    (pm : List (Int × Int)) (d : EnergyData) :
    (mkRailDeltaRow rn pm d).railIndex = d.railIndex := rfl

theorem mkRailDeltaRow_zero {pm : List (Int × Int)} {d : EnergyData}
    (rn : List (Int × (String × String)))
    (h : mapFind d.railIndex pm = none) :
    (mkRailDeltaRow rn pm d).deltaUWs = 0 := by
  unfold mkRailDeltaRow
  rw [h]

theorem dumpStateResidencyDelta_rows (st : PowerStats) (ds : DumpState)
    (t : Int) {row : ResDeltaRow}
    (h : row ∈ (dumpStateResidencyDelta st ds t).1.rows) :
    ∃ r ∈ (getPowerEntityStateResidencyData st []).1,
      ∃ d ∈ r.stateResidencyData,
        row = mkResDeltaRow (getEntityStateMaps st).1 (getEntityStateMaps st).2
          (buildPrevResultsMap ds.prevResults) r.powerEntityId d := by
  have h2 := (mem_foldl_append
    (fun r : PowerEntityStateResidencyResult =>
      r.stateResidencyData.map
        (mkResDeltaRow (getEntityStateMaps st).1 (getEntityStateMaps st).2
          (buildPrevResultsMap ds.prevResults) r.powerEntityId))
    (getPowerEntityStateResidencyData st []).1 [] row).mp h
  rcases h2 with h2 | ⟨r, hr, hrow⟩
  · exact absurd h2 (List.not_mem_nil row)
  · obtain ⟨d, hd, hde⟩ := List.mem_map.mp hrow
    exact ⟨r, hr, d, hd, hde.symm⟩

theorem dumpRailEnergyDelta_rows (st : PowerStats) (ds : DumpState)
    (t : Int) {row : RailDeltaRow}
    (h : row ∈ (dumpRailEnergyDelta st ds t).1.rows) :
    ∃ d ∈ (getEnergyData st []).1,
      row = mkRailDeltaRow (getRailEnergyMaps st)
        (buildPrevEnergyMap ds.prevEnergyData) d := by
  obtain ⟨d, hd, hde⟩ := List.mem_map.mp h
  exact ⟨d, hd, hde.symm⟩

/-! Claim theorems -/

/-- Claim C1: for every registry with at least one registered entity, calling
`getPowerEntityStateResidencyData` with an empty id list returns the same
result list and the same status as calling it with the full ascending list
`[0, 1, ..., N-1]`. -/
theorem c1_empty_request_equals_full_range (st : PowerStats)
    (h : st.mPowerEntityInfos ≠ []) :
    getPowerEntityStateResidencyData st [] =
      getPowerEntityStateResidencyData st
        (castRange st.mPowerEntityInfos.length) := by
  unfold getPowerEntityStateResidencyData getPowerEntityStateResidencyDataFull
  rw [effectiveIds_nil_of_nonempty h, effectiveIds_of_ne_nil]
  intro hc
  apply h
  unfold castRange at hc
  exact List.length_eq_zero.mp (List.range_eq_nil.mp (List.map_eq_nil_iff.mp hc))

/-- Witness for C1 at a concrete two-entity registry. -/
theorem c1_witness :
    sampleRegistry.mPowerEntityInfos ≠ [] ∧
      getPowerEntityStateResidencyData sampleRegistry [] =
        getPowerEntityStateResidencyData sampleRegistry
          (castRange sampleRegistry.mPowerEntityInfos.length) :=
  ⟨by decide, c1_empty_request_equals_full_range sampleRegistry (by decide)⟩

/-- Claim C5: while no energy provider is registered, `getEnergyData` and
`getRailInfo` return OK status and an empty result list. -/
theorem c5_no_energy_provider (st : PowerStats) (railIndices : List Int)
    (h : st.mRailEnergyDataProvider = none) :
    getEnergyData st railIndices = ([], BinderStatus.ok) ∧
      getRailInfo st = ([], BinderStatus.ok) := by
  unfold getEnergyData getRailInfo
  rw [h]
  exact ⟨rfl, rfl⟩

/-- Witness for C5 at a freshly constructed service. -/
theorem c5_witness :
    getEnergyData initPowerStats [7] = ([], BinderStatus.ok) ∧
      getRailInfo initPowerStats = ([], BinderStatus.ok) :=
  c5_no_energy_provider initPowerStats [7] rfl

/-- Claim C10: calling `getPowerEntityStateResidencyData` with an empty id
list while the registry is also empty returns OK with an empty result list and
invokes no provider (the trace records no `getResults` call). -/
theorem c10_empty_registry_empty_request (st : PowerStats)
    (h : st.mPowerEntityInfos = []) :
    getPowerEntityStateResidencyData st [] = ([], BinderStatus.ok) ∧
      (getPowerEntityStateResidencyDataFull st []).trace = [] := by
  have he : effectiveIds st [] = [] := by
    unfold effectiveIds
    rw [if_neg]
    rintro ⟨_, h2⟩
    exact h2 (by simp [h])
  unfold getPowerEntityStateResidencyData getPowerEntityStateResidencyDataFull
  rw [he]
  exact ⟨rfl, rfl⟩

/-- Witness for C10 at a freshly constructed service. -/
theorem c10_witness :
    getPowerEntityStateResidencyData initPowerStats [] = ([], BinderStatus.ok) ∧
      (getPowerEntityStateResidencyDataFull initPowerStats []).trace = [] :=
  c10_empty_registry_empty_request initPowerStats rfl

/-- Claim C8: a delta-mode dump unconditionally replaces its stored previous
snapshot and timestamp (separately for rail energy and state residency) with
the current ones; a non-delta dump neither writes the statics nor reads them
(its output is independent of the stored snapshot and of the current time). -/
theorem c8_delta_statics_update :
    (∀ (st : PowerStats) (ds : DumpState) (t : Int),
      (dumpStateResidency st ds true t).2 =
        { ds with prevResults := (getPowerEntityStateResidencyData st []).1,
                  prevTimeRes := some t }) ∧
    (∀ (st : PowerStats) (ds : DumpState) (t : Int),
      (dumpRailEnergy st ds true t).2 =
        { ds with prevEnergyData := (getEnergyData st []).1,
                  prevTimeRail := some t }) ∧
    (∀ (st : PowerStats) (ds : DumpState) (t : Int),
      (dumpStateResidency st ds false t).2 = ds ∧
      (dumpRailEnergy st ds false t).2 = ds) ∧
    (∀ (st : PowerStats) (ds1 ds2 : DumpState) (t1 t2 : Int),
      (dumpStateResidency st ds1 false t1).1 =
        (dumpStateResidency st ds2 false t2).1 ∧
      (dumpRailEnergy st ds1 false t1).1 = (dumpRailEnergy st ds2 false t2).1) := by
  refine ⟨?_, ?_, ?_, ?_⟩ <;> intros <;> first | exact ⟨rfl, rfl⟩ | rfl

/-- Claim C2: when the id list contains an out-of-range id, the returned
status is BAD_VALUE, and processing of the remaining ids continues: every
valid requested id whose owning provider supplies data for its entity name
still gets an entry in the result list. -/
theorem c2_invalid_id_partial_results (st : PowerStats) (ids : List Int)
    (hbad : ∃ b ∈ ids, b < 0 ∨ (st.mPowerEntityInfos.length : Int) ≤ b) :
    (getPowerEntityStateResidencyData st ids).2 = BinderStatus.badValue ∧
      (∀ id ∈ ids, ∀ (info : PowerEntityInfo) (p : IStateResidencyDataProvider),
        ¬(id < 0 ∨ (st.mPowerEntityInfos.length : Int) ≤ id) →
        st.mPowerEntityInfos.get? id.toNat = some info →
        st.mStateResidencyDataProviders.get? id.toNat = some p →
        (mapFind info.powerEntityName p.resultsFill).isSome →
        ∃ r ∈ (getPowerEntityStateResidencyData st ids).1,
          r.powerEntityId = id) := by
  obtain ⟨b, hbmem, hbinv⟩ := hbad
  have hne : ids ≠ [] := fun h => by simp [h] at hbmem
  constructor
  · show (getPowerEntityStateResidencyDataFull st ids).err = _
    unfold getPowerEntityStateResidencyDataFull
    rw [effectiveIds_of_ne_nil hne]
    exact runLoop_err_bad st ids hbmem hbinv
  · intro id hid info p hv hinfo hp hfill
    show ∃ r ∈ (getPowerEntityStateResidencyDataFull st ids).results, _
    unfold getPowerEntityStateResidencyDataFull
    rw [effectiveIds_of_ne_nil hne]
    exact runLoop_contains_entry st hid hv hinfo hp hfill

/-- Witness for C2: id 5 is out of range for the two-entity registry, yet the
valid id 0 still gets its result entry. -/
theorem c2_witness :
    (getPowerEntityStateResidencyData sampleRegistry [5, 0]).2 =
      BinderStatus.badValue ∧
      ∃ r ∈ (getPowerEntityStateResidencyData sampleRegistry [5, 0]).1,
        r.powerEntityId = 0 := by
  have h := c2_invalid_id_partial_results sampleRegistry [5, 0]
    ⟨5, by decide, by decide⟩
  refine ⟨h.1, ?_⟩
  exact h.2 0 (by decide)
    { powerEntityId := 0, powerEntityName := "cpu",
      states := [{ powerEntityStateId := 0, powerEntityStateName := "on" }] }
    sampleProviderA (by decide) (by decide) (by decide) (by decide)

/-- Claim C3: error priority.  Any out-of-range id forces BAD_VALUE, whether a
provider failure happened before or after it, and once the error is BAD_VALUE
no loop step overwrites it; if all requested ids are valid and a provider
failure occurred, the status is FAILED_TRANSACTION. -/
theorem c3_error_priority (st : PowerStats) (ids : List Int) :
    ((∃ b ∈ ids, b < 0 ∨ (st.mPowerEntityInfos.length : Int) ≤ b) →
      (getPowerEntityStateResidencyData st ids).2 = BinderStatus.badValue) ∧
    ((∀ id ∈ ids, ¬(id < 0 ∨ (st.mPowerEntityInfos.length : Int) ≤ id)) →
      hasMissing (getPowerEntityStateResidencyDataFull st ids).trace = true →
      (getPowerEntityStateResidencyData st ids).2 =
        BinderStatus.failedTransaction) ∧
    (∀ (s : ResidencyLoopState) (id : Int), s.err = BinderStatus.badValue →
      (residencyStep st s id).err = BinderStatus.badValue) := by
  refine ⟨?_, ?_, fun s id h => residencyStep_err_bad id h⟩
  · rintro ⟨b, hbmem, hbinv⟩
    have hne : ids ≠ [] := fun h => by simp [h] at hbmem
    show (getPowerEntityStateResidencyDataFull st ids).err = _
    unfold getPowerEntityStateResidencyDataFull
    rw [effectiveIds_of_ne_nil hne]
    exact runLoop_err_bad st ids hbmem hbinv
  · intro hvalid hmiss
    show (getPowerEntityStateResidencyDataFull st ids).err = _
    unfold getPowerEntityStateResidencyDataFull at hmiss ⊢
    rcases eq_or_ne ids [] with rfl | hne
    · rcases eq_or_ne st.mPowerEntityInfos [] with hinf | hinf
      · have he : effectiveIds st [] = [] := by
          unfold effectiveIds
          rw [if_neg]
          rintro ⟨_, h2⟩
          exact h2 (by simp [hinf])
        rw [he] at hmiss
        simp [runResidencyLoop, initLoopState, hasMissing] at hmiss
      · rw [effectiveIds_nil_of_nonempty hinf] at hmiss ⊢
        have hval : ∀ id ∈ castRange st.mPowerEntityInfos.length,
            ¬(id < 0 ∨ (st.mPowerEntityInfos.length : Int) ≤ id) := by
          intro id hid
          unfold castRange at hid
          obtain ⟨k, hk, rfl⟩ := List.mem_map.mp hid
          have hk2 := List.mem_range.mp hk
          simp only [Int.ofNat_eq_natCast]
          omega
        rw [runLoop_err_char st _ hval, hmiss]
        rfl
    · rw [effectiveIds_of_ne_nil hne] at hmiss ⊢
      rw [runLoop_err_char st ids hvalid, hmiss]
      rfl

/-- Witness for C3: with a provider that supplies no data, an out-of-range id
before or after the failing valid id gives BAD_VALUE, while the failing valid
id alone gives FAILED_TRANSACTION. -/
theorem c3_witness :
    (getPowerEntityStateResidencyData sampleRegistryNoData [5, 0]).2 =
      BinderStatus.badValue ∧
    (getPowerEntityStateResidencyData sampleRegistryNoData [0, 5]).2 =
      BinderStatus.badValue ∧
    (getPowerEntityStateResidencyData sampleRegistryNoData [0]).2 =
      BinderStatus.failedTransaction := by
  refine ⟨(c3_error_priority sampleRegistryNoData [5, 0]).1 ⟨5, by decide, by decide⟩,
    (c3_error_priority sampleRegistryNoData [0, 5]).1 ⟨5, by decide, by decide⟩,
    (c3_error_priority sampleRegistryNoData [0]).2.1 (by decide) (by decide)⟩

/-- Claim C4 counterexample: with a provider that owns entity `"e"` but
supplies no data for it, requesting `[0, 0]` triggers the provider's
`getResults` twice for the same entity name in one top-level call — the claim
that it is invoked at most once per distinct entity name fails as stated. -/
theorem c4_counterexample :
    ¬ (fetchCountFor
        (getPowerEntityStateResidencyDataFull sampleRegistryNoData [0, 0]).trace
        "e" ≤ 1) := by
  decide

/-- Claim C4 (amended): during one top-level call to
`getPowerEntityStateResidencyData`, for an entity name `n` such that every
registered entity named `n` has its owning provider supplying results for
`n`, the provider fetch is triggered at most once by ids of name `n`; without
that proviso a fetch that leaves the scratch map without `n` is retried on
each later occurrence of the name. -/
theorem c4_fetch_at_most_once (st : PowerStats) (ids : List Int) (n : String)
    (H : ∀ (i : Nat) (info : PowerEntityInfo),
        st.mPowerEntityInfos.get? i = some info → info.powerEntityName = n →
        ∃ p, st.mStateResidencyDataProviders.get? i = some p ∧
          (mapFind n p.resultsFill).isSome) :
    fetchCountFor (getPowerEntityStateResidencyDataFull st ids).trace n ≤ 1 := by
  unfold getPowerEntityStateResidencyDataFull runResidencyLoop
  have h := foldl_inv
    (P := fun s : ResidencyLoopState =>
      fetchCountFor s.trace n = 0 ∨
        (fetchCountFor s.trace n = 1 ∧ (mapFind n s.stateResidencies).isSome))
    (effectiveIds st ids)
    (fun s a _ hs => residencyStep_fetchCount H s a hs)
    (Or.inl (rfl : fetchCountFor initLoopState.trace n = 0))
  rcases h with h | ⟨h, _⟩ <;> omega

/-- Witness for C4 (amended) at a registry whose provider supplies data for
all its entities, with the name `"cpu"` requested twice. -/
theorem c4_witness :
    fetchCountFor
      (getPowerEntityStateResidencyDataFull sampleRegistry [0, 1, 0]).trace
      "cpu" ≤ 1 := by
  apply c4_fetch_at_most_once
  intro i info hinfo hname
  refine ⟨sampleProviderA, ?_, by decide⟩
  have hlen : i < sampleRegistry.mPowerEntityInfos.length := by
    by_contra hge
    push_neg at hge
    rw [List.get?_eq_none.mpr hge] at hinfo
    exact Option.noConfusion hinfo
  have h2 : sampleRegistry.mPowerEntityInfos.length = 2 := by decide
  rw [h2] at hlen
  have hp : sampleRegistry.mStateResidencyDataProviders =
      [sampleProviderA, sampleProviderA] := by decide
  rw [hp]
  match i, hlen with
  | 0, _ => rfl
  | 1, _ => rfl
  | (k + 2), hk => exact absurd hk (by omega)

/-- Claim C6: starting from a fresh service, any sequence of provider
registrations leaves the registry with entity ids exactly `[0, ..., N-1]` in
table order (dense, no gaps, no reuse), and each registration only appends to
the entity table. -/
theorem c6_ids_dense_append_only :
    (∀ ps : List IStateResidencyDataProvider,
      entityIds (registerAll ps) =
        castRange (registerAll ps).mPowerEntityInfos.length) ∧
    (∀ (st : PowerStats) (p : IStateResidencyDataProvider),
      ∃ tail, (addStateResidencyDataProvider st p).mPowerEntityInfos =
        st.mPowerEntityInfos ++ tail) := by
  refine ⟨registerAll_entityIds, fun st p =>
    ⟨numberedInfos (st.mPowerEntityInfos.length : Int) p.getInfo, ?_⟩⟩
  unfold addStateResidencyDataProvider
  exact addEntities_infos p p.getInfo _ st

/-- Claim C9: the entity-info table and the provider table always have equal
length (each registration appends to both in lockstep, and setting the rail
provider touches neither), so the provider lookup done for any in-range id in
`getPowerEntityStateResidencyData` is in bounds. -/
theorem c9_tables_aligned :
    (∀ (st : PowerStats) (p : IStateResidencyDataProvider),
      st.mPowerEntityInfos.length = st.mStateResidencyDataProviders.length →
      (addStateResidencyDataProvider st p).mPowerEntityInfos.length =
        (addStateResidencyDataProvider st p).mStateResidencyDataProviders.length) ∧
    (∀ (st : PowerStats) (p : IRailEnergyDataProvider),
      (setRailDataProvider st p).mPowerEntityInfos = st.mPowerEntityInfos ∧
      (setRailDataProvider st p).mStateResidencyDataProviders =
        st.mStateResidencyDataProviders) ∧
    (∀ ps : List IStateResidencyDataProvider,
      (registerAll ps).mPowerEntityInfos.length =
        (registerAll ps).mStateResidencyDataProviders.length) ∧
    (∀ (ps : List IStateResidencyDataProvider) (id : Int),
      ¬(id < 0 ∨ ((registerAll ps).mPowerEntityInfos.length : Int) ≤ id) →
      ((registerAll ps).mStateResidencyDataProviders.get? id.toNat).isSome) := by
  refine ⟨?_, fun st p => ⟨rfl, rfl⟩, registerAll_lengths, ?_⟩
  · intro st p h
    rw [add_infos_length, add_providers_length, h]
  · intro ps id hv
    apply get?_isSome_of_lt
    have h := registerAll_lengths ps
    omega

/-- Witness for C9: the provider lookup for id 1 in the two-entity registry
succeeds. -/
theorem c9_witness :
    ((registerAll [sampleProviderA]).mStateResidencyDataProviders.get?
      (Int.toNat 1)).isSome :=
  c9_tables_aligned.2.2.2 [sampleProviderA] 1 (by decide)

/-- Claim C7: in a delta-mode dump, a record key (rail index, or entity id
plus state id) present in the current snapshot but absent from the stored
previous snapshot is rendered with delta 0; in particular on the first-ever
delta call (empty previous snapshot, uninitialised previous time) every delta
and the elapsed time render as zero. -/
theorem c7_absent_key_zero_delta :
    (∀ (st : PowerStats) (ds : DumpState) (t : Int) (row : ResDeltaRow),
      row ∈ (dumpStateResidencyDelta st ds t).1.rows →
      twoTierFind (buildPrevResultsMap ds.prevResults) row.entityId
        row.stateId = none →
      row.deltaTotalTime = 0 ∧ row.deltaTotalCount = 0 ∧
        row.deltaTimestamp = 0) ∧
    (∀ (st : PowerStats) (ds : DumpState) (t : Int) (row : RailDeltaRow),
      row ∈ (dumpRailEnergyDelta st ds t).1.rows →
      mapFind row.railIndex (buildPrevEnergyMap ds.prevEnergyData) = none →
      row.deltaUWs = 0) ∧
    (∀ (st : PowerStats) (ds : DumpState) (t : Int),
      ds.prevResults = [] → ds.prevTimeRes = none →
      (dumpStateResidencyDelta st ds t).1.elapsedMs = 0 ∧
      ∀ row ∈ (dumpStateResidencyDelta st ds t).1.rows,
        row.deltaTotalTime = 0 ∧ row.deltaTotalCount = 0 ∧
          row.deltaTimestamp = 0) ∧
    (∀ (st : PowerStats) (ds : DumpState) (t : Int),
      ds.prevEnergyData = [] → ds.prevTimeRail = none →
      (dumpRailEnergyDelta st ds t).1.elapsedMs = 0 ∧
      ∀ row ∈ (dumpRailEnergyDelta st ds t).1.rows, row.deltaUWs = 0) := by
  refine ⟨?_, ?_, ?_, ?_⟩
  · intro st ds t row hrow hnone
    obtain ⟨r, hr, d, hd, rfl⟩ := dumpStateResidencyDelta_rows st ds t hrow
    exact mkResDeltaRow_zero _ _ hnone
  · intro st ds t row hrow hnone
    obtain ⟨d, hd, rfl⟩ := dumpRailEnergyDelta_rows st ds t hrow
    exact mkRailDeltaRow_zero _ hnone
  · intro st ds t h1 h2
    constructor
    · show t - (ds.prevTimeRes.getD t) = 0
      rw [h2]
      simp
    · intro row hrow
      obtain ⟨r, hr, d, hd, rfl⟩ := dumpStateResidencyDelta_rows st ds t hrow
      refine mkResDeltaRow_zero _ _ ?_
      rw [h1]
      rfl
  · intro st ds t h1 h2
    constructor
    · show t - (ds.prevTimeRail.getD t) = 0
      rw [h2]
      simp
    · intro row hrow
      obtain ⟨d, hd, rfl⟩ := dumpRailEnergyDelta_rows st ds t hrow
      refine mkRailDeltaRow_zero _ ?_
      rw [h1]
      rfl

/-- Witness for C7 at the first-ever delta dump of a concrete service. -/
theorem c7_witness :
    (dumpStateResidencyDelta sampleRegistry initDumpState 7).1.elapsedMs = 0 ∧
      (dumpRailEnergyDelta sampleRegistry initDumpState 7).1.elapsedMs = 0 :=
  ⟨(c7_absent_key_zero_delta.2.2.1 sampleRegistry initDumpState 7 rfl rfl).1,
   (c7_absent_key_zero_delta.2.2.2 sampleRegistry initDumpState 7 rfl rfl).1⟩
